import Mathlib

/-!
Shallow embedding of `src/app.py` (SG-analysis): the pitch-deck intake,
classification, memo generation and persistence pipeline.

External collaborators (OpenAI inference, PyMuPDF extraction, WeasyPrint
rendering, file saving, template rendering) are modelled as explicit
oracle functions; the SQLite record store is modelled as a list of
`Startup` records keyed by `id`.  Python's `json.loads` (used by
`extract_startup_info`) is modelled by an executable JSON parser below.
-/

namespace SG

/-- The character `LEFT CURLY BRACKET`. -/
def lbrace : Char := Char.ofNat 123

/-- The character `RIGHT CURLY BRACKET`. -/
def rbrace : Char := Char.ofNat 125

/-- Python JSON values as produced by `json.loads`.  Numbers keep their
lexeme: no claim computes with numeric values. -/
inductive Json where
  | null
  | bool (b : Bool)
  | num (lexeme : String)
  | str (s : String)
  | arr (elems : List Json)
  | obj (members : List (String × Json))

/-- JSON whitespace (the four characters Python's decoder skips). -/
def jsonWs (c : Char) : Bool := c = ' ' || c = '\t' || c = '\n' || c = '\r'

/-- Drop leading JSON whitespace. -/
def skipWs : List Char → List Char
  | [] => []
  | c :: cs => if jsonWs c then skipWs cs else c :: cs

/-- Value of a hexadecimal digit. -/
def hexVal (c : Char) : Option Nat :=
  if '0' ≤ c ∧ c ≤ '9' then some (c.toNat - 48)
  else if 'a' ≤ c ∧ c ≤ 'f' then some (c.toNat - 87)
  else if 'A' ≤ c ∧ c ≤ 'F' then some (c.toNat - 55)
  else none

/-- Parse the body of a JSON string (opening quote already consumed),
returning the decoded characters and the remaining input. -/
def parseStrChars : Nat → List Char → Option (List Char × List Char)
  | 0, _ => none
  | _, [] => none
  | fuel + 1, c :: cs =>
    if c = '"' then some ([], cs)
    else if c = '\\' then
      match cs with
      | [] => none
      | e :: cs2 =>
        if e = '"' ∨ e = '\\' ∨ e = '/' then
          (parseStrChars fuel cs2).map (fun p => (e :: p.1, p.2))
        else if e = 'b' then
          (parseStrChars fuel cs2).map (fun p => (Char.ofNat 8 :: p.1, p.2))
        else if e = 'f' then
          (parseStrChars fuel cs2).map (fun p => (Char.ofNat 12 :: p.1, p.2))
        else if e = 'n' then
          (parseStrChars fuel cs2).map (fun p => ('\n' :: p.1, p.2))
        else if e = 'r' then
          (parseStrChars fuel cs2).map (fun p => ('\r' :: p.1, p.2))
        else if e = 't' then
          (parseStrChars fuel cs2).map (fun p => ('\t' :: p.1, p.2))
        else if e = 'u' then
          match cs2 with
          | a :: b :: c2 :: d :: cs3 =>
            match hexVal a, hexVal b, hexVal c2, hexVal d with
            | some ha, some hb, some hc, some hd =>
              (parseStrChars fuel cs3).map
                (fun p => (Char.ofNat (((ha * 16 + hb) * 16 + hc) * 16 + hd) :: p.1, p.2))
            | _, _, _, _ => none
          | _ => none
        else none
    else if c.toNat < 32 then none
    else (parseStrChars fuel cs).map (fun p => (c :: p.1, p.2))

/-- Span of leading decimal digits. -/
def parseDigits : List Char → List Char × List Char
  | [] => ([], [])
  | c :: cs =>
    if c.isDigit then
      let p := parseDigits cs
      (c :: p.1, p.2)
    else ([], c :: cs)

/-- Integer part of a JSON number: `0`, or a nonzero digit followed by
digits (strict: no leading zeros). -/
def parseIntPart : List Char → Option (List Char × List Char)
  | [] => none
  | c :: cs =>
    if c = '0' then some (['0'], cs)
    else if c.isDigit then
      let p := parseDigits cs
      some (c :: p.1, p.2)
    else none

/-- Optional fraction part of a JSON number. -/
def parseFrac : List Char → Option (List Char × List Char)
  | '.' :: cs =>
    match parseDigits cs with
    | ([], _) => none
    | (ds, rest) => some ('.' :: ds, rest)
  | cs => some ([], cs)

/-- Optional exponent part of a JSON number. -/
def parseExp : List Char → Option (List Char × List Char)
  | [] => some ([], [])
  | c :: cs =>
    if c = 'e' ∨ c = 'E' then
      match cs with
      | [] => none
      | s :: cs2 =>
        if s = '+' ∨ s = '-' then
          match parseDigits cs2 with
          | ([], _) => none
          | (ds, rest) => some (c :: s :: ds, rest)
        else
          match parseDigits (s :: cs2) with
          | ([], _) => none
          | (ds, rest) => some (c :: ds, rest)
    else some ([], c :: cs)

/-- A JSON number (or the `Infinity` / `-Infinity` constants Python's
decoder accepts by default). -/
def parseNumberChars (cs : List Char) : Option (Json × List Char) :=
  let sgn : List Char × List Char :=
    match cs with
    | '-' :: r => (['-'], r)
    | _ => ([], cs)
  match sgn.2 with
  | 'I' :: r =>
    if r.take 7 = ['n', 'f', 'i', 'n', 'i', 't', 'y'] then
      some (Json.num (String.mk (sgn.1 ++ ['I', 'n', 'f', 'i', 'n', 'i', 't', 'y'])), r.drop 7)
    else none
  | rest =>
    match parseIntPart rest with
    | none => none
    | some (ip, cs2) =>
      match parseFrac cs2 with
      | none => none
      | some (fp, cs3) =>
        match parseExp cs3 with
        | none => none
        | some (ep, cs4) => some (Json.num (String.mk (sgn.1 ++ ip ++ fp ++ ep)), cs4)

mutual

/-- Parse one JSON value (fuelled recursive descent). -/
def parseValue : Nat → List Char → Option (Json × List Char)
  | 0, _ => none
  | fuel + 1, cs =>
    match skipWs cs with
    | [] => none
    | c :: cs1 =>
      if c = '"' then
        (parseStrChars (fuel + 1) cs1).map (fun p => (Json.str (String.mk p.1), p.2))
      else if c = lbrace then parseObjBody fuel (skipWs cs1)
      else if c = '[' then parseArrBody fuel (skipWs cs1)
      else if c = 'n' then
        if cs1.take 3 = ['u', 'l', 'l'] then some (Json.null, cs1.drop 3) else none
      else if c = 't' then
        if cs1.take 3 = ['r', 'u', 'e'] then some (Json.bool true, cs1.drop 3) else none
      else if c = 'f' then
        if cs1.take 4 = ['a', 'l', 's', 'e'] then some (Json.bool false, cs1.drop 4) else none
      else if c = 'N' then
        if cs1.take 2 = ['a', 'N'] then some (Json.num "NaN", cs1.drop 2) else none
      else if c = '-' ∨ c.isDigit ∨ c = 'I' then parseNumberChars (c :: cs1)
      else none

/-- Parse an array body (opening bracket and leading whitespace consumed). -/
def parseArrBody : Nat → List Char → Option (Json × List Char)
  | 0, _ => none
  | fuel + 1, cs =>
    match cs with
    | [] => none
    | c :: cs1 =>
      if c = ']' then some (Json.arr [], cs1)
      else parseArrItems fuel cs []

/-- Parse the comma-separated items of an array. -/
def parseArrItems : Nat → List Char → List Json → Option (Json × List Char)
  | 0, _, _ => none
  | fuel + 1, cs, acc =>
    match parseValue fuel cs with
    | none => none
    | some (v, rest) =>
      match skipWs rest with
      | [] => none
      | c :: rest2 =>
        if c = ',' then parseArrItems fuel rest2 (v :: acc)
        else if c = ']' then some (Json.arr ((v :: acc).reverse), rest2)
        else none

/-- Parse an object body (opening brace and leading whitespace consumed). -/
def parseObjBody : Nat → List Char → Option (Json × List Char)
  | 0, _ => none
  | fuel + 1, cs =>
    match cs with
    | [] => none
    | c :: cs1 =>
      if c = rbrace then some (Json.obj [], cs1)
      else parseObjItems fuel cs []

/-- Parse the comma-separated `"key": value` members of an object. -/
def parseObjItems : Nat → List Char → List (String × Json) → Option (Json × List Char)
  | 0, _, _ => none
  | fuel + 1, cs, acc =>
    match skipWs cs with
    | [] => none
    | c :: cs1 =>
      if c = '"' then
        match parseStrChars fuel cs1 with
        | none => none
        | some (kcs, rest) =>
          match skipWs rest with
          | ':' :: rest2 =>
            match parseValue fuel rest2 with
            | none => none
            | some (v, rest3) =>
              match skipWs rest3 with
              | [] => none
              | c2 :: rest4 =>
                if c2 = ',' then parseObjItems fuel rest4 ((String.mk kcs, v) :: acc)
                else if c2 = rbrace then
                  some (Json.obj (((String.mk kcs, v) :: acc).reverse), rest4)
                else none
          | _ => none
      else none

end

/-- Model of Python's `json.loads`: parse one JSON document, requiring
only whitespace after the value; `none` models a raised `JSONDecodeError`. -/
def json_loads (s : String) : Option Json :=
  match parseValue (s.data.length * 4 + 16) s.data with
  | some (v, rest) => if skipWs rest = [] then some v else none
  | none => none

/-- Model of `dict.get(k, dflt)` on a parsed object (duplicate keys:
last occurrence wins, as in a Python dict built by the decoder). -/
def objGetD (kvs : List (String × Json)) (k : String) (dflt : Json) : Json :=
  match kvs.reverse.find? (fun p => p.1 == k) with
  | some p => p.2
  | none => dflt

/-- `some kvs` iff the parse produced a dict; anything else makes
`.get` raise `AttributeError` in the Python code. -/
def asObj : Option Json → Option (List (String × Json))
  | some (Json.obj kvs) => some kvs
  | _ => none

/-- The fixed industry taxonomy offered to the classifier prompt
(`app.py` lines 76-78), including the sentinel `"Other"`. -/
def industry_taxonomy : List String :=
  ["Fintech", "HealthTech", "Biotech", "SaaS", "AI/ML", "DeepTech", "E-commerce",
   "ClimateTech", "Clean Energy", "Mobility", "Logistics", "EdTech", "Cybersecurity",
   "Gaming", "Agritech", "PropTech", "Other"]

/-- Model of the regex fallback `re.search(r"\x7b.*\x7d", content, re.DOTALL)`:
with `DOTALL` and a greedy `.*`, the match (if any) runs from the first
left brace to the last right brace, provided the latter comes after the
former. -/
def recoverBraces (s : String) : Option String :=
  let cs := s.data
  match cs.findIdx? (fun c => c = lbrace) with
  | none => none
  | some i =>
    match cs.reverse.findIdx? (fun c => c = rbrace) with
    | none => none
    | some jr =>
      let j := cs.length - 1 - jr
      if i < j then some (String.mk ((cs.drop i).take (j - i + 1))) else none

/-- Fixed part of the classifier prompt before the deck excerpt
(`app.py` lines 65-69). -/
def extractP0 : String :=
  "\n    You are an expert VC analyst. Your task is to extract the startup **Name** and map the **Industry** into a clean, standardized category.\n\n    Pitch Deck Extract:\n    "

/-- Fixed part of the classifier prompt after the deck excerpt
(`app.py` lines 70-85). -/
def extractP1 : String :=
  "\n\n    Rules:\n    - Respond ONLY in valid JSON (no extra text).\n    - Keys: \"name\", \"industry\".\n    - \"name\" = the company/startup name (short, without Inc, Ltd, etc. if possible).\n    - \"industry\" = choose the best fit from: \n      [\"Fintech\", \"HealthTech\", \"Biotech\", \"SaaS\", \"AI/ML\", \"DeepTech\", \"E-commerce\", \n       \"ClimateTech\", \"Clean Energy\", \"Mobility\", \"Logistics\", \"EdTech\", \"Cybersecurity\", \n       \"Gaming\", \"Agritech\", \"PropTech\", \"Other\"].\n\n    Example output:\n    \x7b\n      \"name\": \"Acme AI\",\n      \"industry\": \"AI/ML\"\n    \x7d\n    "

/-- The classifier prompt: the deck text is sliced to its first 3000
characters (`deck_text[:3000]`, `app.py` line 69) before interpolation. -/
def extract_prompt (deck_text : String) : String :=
  extractP0 ++ String.mk (deck_text.data.take 3000) ++ extractP1

/-- Characters removed by Python's `str.strip()` (the ASCII whitespace
characters; the exotic Unicode whitespace Python also strips plays no
role here). -/
def pyWs (c : Char) : Bool :=
  c = ' ' || c = '\t' || c = '\n' || c = '\r' || c = Char.ofNat 11 || c = Char.ofNat 12

/-- Python's `str.strip()`: drop leading and trailing whitespace. -/
def pyStrip (s : String) : String :=
  String.mk (((s.data.dropWhile pyWs).reverse.dropWhile pyWs).reverse)

/-- The response-parsing logic of `extract_startup_info` (`app.py` lines
95-109), applied to the stripped response content: strict parse, then
regex-recovered parse, then the `("", "")` fallback.  A successful parse
that is not a dict makes `.get` raise, which the bare `except` also sends
to the fallback. -/
def parse_startup_info (content : String) : Json × Json :=
  match asObj (json_loads content) with
  | some kvs => (objGetD kvs "name" (Json.str ""), objGetD kvs "industry" (Json.str ""))
  | none =>
    match recoverBraces content with
    | some sub =>
      match asObj (json_loads sub) with
      | some kvs => (objGetD kvs "name" (Json.str ""), objGetD kvs "industry" (Json.str ""))
      | none => (Json.str "", Json.str "")
    | none => (Json.str "", Json.str "")

/-- `extract_startup_info` (`app.py` lines 64-109).  The inference call is
the oracle `complete`; a transport error from it is not caught (the `try`
only wraps the parsing) and so propagates.  The response content is
stripped (`.strip()`, line 93) and then parsed. -/
def extract_startup_info (complete : String → Except String String) (deck_text : String) :
    Except String (Json × Json) :=
  (complete (extract_prompt deck_text)).map (fun content => parse_startup_info (pyStrip content))

/-- Fixed part of the memo prompt before the startup name (`app.py`
lines 114-117). -/
def memoP0 : String :=
  "\nYou are an expert venture capital analyst preparing an investment committee (IC) style memo.\n\nStartup: "

/-- Memo prompt text between the startup name and the industry. -/
def memoP1 : String := "\nIndustry: "

/-- Memo prompt text between the industry and the deck text. -/
def memoP2 : String := "\nPitch Deck Extract: "

/-- Fixed part of the memo prompt after the deck text (`app.py` lines
120-174): instructions, the twelve section titles in order, and the
formatting rules. -/
def memoP3 : String :=
  "\n\nInstructions:\n1. Write a **structured, data-heavy investment memo** in professional style.\n2. Use **outside data sources** (market reports, recent funding rounds, competitor valuations, growth benchmarks) where possible. If no precise figure is available, use reasoned industry averages and state the source region/year clearly.\n3. Include **citations/sources** at the end of each major section.\n4. Avoid placeholders like \"n/a\" \u2014 leave cells blank if unknown.\n\nSections (in this order):\n- Executive Summary  \n  - Bullet points with ARR ($), MoM Growth (%), Gross Margin (%), Valuation ($), Funding to Date ($), and clear Recommendation.  \n  - 1\u20132 paragraphs summarizing opportunity, risks, and rationale.  \n\n- Industry Landscape  \n  - Market size, CAGR, drivers, regional trends, and tailwinds/headwinds.  \n  - At least 3 external sources referenced.  \n\n- Pain Points  \n  - List the core customer problems.  \n\n- Competitive Landscape (Porter\u2019s 5 Forces)  \n  - Each force explained with references.  \n\n- Comparator Table  \n  - Include **as many relevant direct and indirect competitors as possible** (at least 5 rows if available).  \n  - Columns: Competitor | ARR ($) | Funding ($) | Valuation ($) | HQ | Year Founded | Notes (strategic position, differentiator).  \n\n- White Space Opportunities  \n  - 3\u20135 expansion paths or product vectors.  \n\n- Benchmarks & Multiples  \n  - Include revenue multiples, ARR multiples, recent exits in the industry, and any valuation comparables.  \n\n- GTM Strategy  \n  - Analyze startup\u2019s motion, channels, partnerships, and bottlenecks.  \n\n- ROI Evidence  \n  - Quantify payback period, unit economics, margins, efficiency gains.  \n\n- Regulatory Readiness  \n  - Relevant licenses, compliance risks, or certifications required.  \n\n- Exit Paths  \n  - Acquisition targets, IPO potential, or strategic tuck-ins.  \n\n- Quantitative Scoring Matrix  \n  - A table with 0\u201310 scores for: Market, Product, Traction, Team, Competition, Scalability, Exit Potential.  \n  - Conclude with weighted overall score and short summary paragraph.  \n\nFormatting Rules:\n- Use **Markdown headings (##)** for sections.  \n- Use bullet points for lists.  \n- Tables must be clean and properly aligned.  \n- Keep writing professional, fact-based, and concise, but rich with data.  \n- Always end each section with a short line of **Sources** (e.g. Sources: Crunchbase, Pitchbook 2024, Statista).  \n"

/-- The memo prompt (`app.py` lines 114-174).  The whole `deck_text` is
interpolated: unlike the classifier, no slice bounds it. -/
def memo_prompt (startup_name industry deck_text : String) : String :=
  memoP0 ++ startup_name ++ memoP1 ++ industry ++ memoP2 ++ deck_text ++ memoP3

/-- `generate_memo` (`app.py` lines 113-180): one inference call over the
single prompt; the raw response content is returned and any error from
the call propagates (there is no `try` around it). -/
def generate_memo (complete : String → Except String String)
    (startup_name industry deck_text : String) : Except String String :=
  complete (memo_prompt startup_name industry deck_text)

/-- How Python renders `startup.industry` (a nullable column) inside the
memo prompt f-string: `None` prints as the string `"None"`. -/
def pyStrOfOpt : Option String → String
  | none => "None"
  | some s => s

/-- The `Startup` row (`app.py` lines 31-53).  All columns except the
primary key and `name` are nullable.  `Float` columns are modelled as
`Rat` (they are only stored and compared, never computed with here). -/
structure Startup where
  id : Nat
  name : String
  industry : Option String
  stage : Option String
  assigned_gp : Option String
  contact_person : Option String
  founders : Option String
  arr : Option Rat
  funding : Option Rat
  valuation : Option Rat
  gp_notes : Option String
  score_market : Option Int
  score_product : Option Int
  score_traction : Option Int
  score_team : Option Int
  score_competition : Option Int
  score_scalability : Option Int
  score_exit : Option Int
  overall_score : Option Rat
  status : Option String
  memo_pdf : Option String
  deck_file : Option String

/-- The record store: the set of persisted rows, keyed by `id` (list
order is not semantically meaningful). -/
def Db := List Startup

/-- `Startup.query.get(i)`. -/
def dbGet (db : Db) (i : Nat) : Option Startup :=
  List.find? (fun s => s.id == i) db

/-- Committing a mutated row: every row with the given key is replaced. -/
def dbSet (db : Db) (i : Nat) (s : Startup) : Db :=
  List.map (fun r => if r.id == i then s else r) db

/-- The external collaborators of the pipeline, as oracle functions.
`complete` is the inference service, `extract` the PDF text extractor,
`saveFile`/`writePdf` the filesystem writes, `secureFilename`,
`mdRender` and `pdfTemplate` the pure library calls
(`secure_filename`, `MarkdownIt().render`, `render_template`). -/
structure Oracles where
  complete : String → Except String String
  extract : String → Except String String
  secureFilename : String → String
  saveFile : String → Except String Unit
  mdRender : String → String
  pdfTemplate : String → String → String
  writePdf : String → String → Except String Unit

/-- Python's `str.endswith` (case-sensitive, on characters). -/
def endswith (s suffix : String) : Bool :=
  List.isSuffixOf suffix.data s.data

/-- An uploaded file as seen by the route (its bytes live behind the
`saveFile`/`extract` oracles). -/
structure UploadFile where
  filename : String

/-- External calls performed by a request, in order. -/
inductive Call where
  | save (path : String)
  | extractText (path : String)
  | completeCall (prompt : String)

/-- Outcome of the upload route. -/
inductive UploadResponse where
  | badRequest (msg : String)
  | serverError (e : String)
  | confirmPage (filename : String) (name industry : Json)

/-- The POST branch of `upload_pitchdeck` (`app.py` lines 188-208),
returning the (unchanged) store, the response, and the log of external
calls made.  The guard `not file or not file.filename.endswith(".pdf")`
rejects with a 400 before any file save, extraction or inference call;
an error from any oracle propagates (no `try` in the route). -/
def upload_pitchdeck (o : Oracles) (file? : Option UploadFile) (db : Db) :
    Db × UploadResponse × List Call :=
  match file? with
  | none => (db, UploadResponse.badRequest "Please upload a valid PDF", [])
  | some f =>
    if endswith f.filename ".pdf" = false then
      (db, UploadResponse.badRequest "Please upload a valid PDF", [])
    else
      let filename := o.secureFilename f.filename
      let filepath := "uploads/" ++ filename
      match o.saveFile filepath with
      | Except.error e => (db, UploadResponse.serverError e, [Call.save filepath])
      | Except.ok _ =>
        match o.extract filepath with
        | Except.error e =>
          (db, UploadResponse.serverError e, [Call.save filepath, Call.extractText filepath])
        | Except.ok deck_text =>
          match extract_startup_info o.complete deck_text with
          | Except.error e =>
            (db, UploadResponse.serverError e,
             [Call.save filepath, Call.extractText filepath,
              Call.completeCall (extract_prompt deck_text)])
          | Except.ok (name, industry) =>
            (db, UploadResponse.confirmPage filename name industry,
             [Call.save filepath, Call.extractText filepath,
              Call.completeCall (extract_prompt deck_text)])

/-- The 400 guard of the upload route: true when the file is missing or
its filename does not end with the exact lowercase `".pdf"`. -/
def upload_rejected : Option UploadFile → Bool
  | none => true
  | some f => !(endswith f.filename ".pdf")

/-- The `/confirm` form fields (`app.py` lines 212-219). -/
structure ConfirmForm where
  filename : String
  name : String
  industry : String
  assigned_gp : String
  contact_person : String

/-- `confirm_startup` (`app.py` lines 210-223): inserts a new row built
verbatim from the form, with `status="Submitted"` and the remaining
columns unset.  The autoincrement key is modelled as `db.length + 1`. -/
def confirm_startup (form : ConfirmForm) (db : Db) : Db :=
  { id := List.length db + 1, name := form.name, industry := some form.industry,
    stage := none, assigned_gp := some form.assigned_gp,
    contact_person := some form.contact_person, founders := none,
    arr := none, funding := none, valuation := none, gp_notes := none,
    score_market := none, score_product := none, score_traction := none,
    score_team := none, score_competition := none, score_scalability := none,
    score_exit := none, overall_score := none, status := some "Submitted",
    memo_pdf := none, deck_file := some form.filename } :: db

/-- Outcome of the memo-generation route. -/
inductive MemoResult where
  | notFound
  | badRequest (msg : String)
  | serverError (e : String)
  | page (memo_html : String) (download : String)

/-- `generate_memo_for_startup` (`app.py` lines 230-260): look the row
up (404 when absent), reject when `deck_file` is falsy (None or empty),
extract, generate the memo, render markdown to HTML, render the PDF
template and write the PDF, and only then assign `memo_pdf` and
`gp_notes` and commit.  An error from any oracle propagates and reaches
the caller before the commit, leaving the store unchanged. -/
def generate_memo_for_startup (o : Oracles) (db : Db) (sid : Nat) : Db × MemoResult :=
  match dbGet db sid with
  | none => (db, MemoResult.notFound)
  | some startup =>
    match startup.deck_file with
    | none => (db, MemoResult.badRequest "No pitch deck uploaded")
    | some f =>
      if f = "" then (db, MemoResult.badRequest "No pitch deck uploaded")
      else
        match o.extract ("uploads/" ++ f) with
        | Except.error e => (db, MemoResult.serverError e)
        | Except.ok deck_text =>
          match generate_memo o.complete startup.name (pyStrOfOpt startup.industry) deck_text with
          | Except.error e => (db, MemoResult.serverError e)
          | Except.ok memo_text =>
            match o.writePdf ("outputs/" ++ (startup.name ++ "_memo.pdf"))
                (o.pdfTemplate (o.mdRender memo_text) startup.name) with
            | Except.error e => (db, MemoResult.serverError e)
            | Except.ok _ =>
              (dbSet db sid
                { startup with memo_pdf := some (startup.name ++ "_memo.pdf"),
                               gp_notes := some memo_text },
               MemoResult.page (o.mdRender memo_text) (startup.name ++ "_memo.pdf"))

/-! Concrete fixtures used by counterexamples and witnesses. -/

/-- Build a full oracle set from the three failure-relevant collaborators,
with the pure collaborators instantiated by simple total functions. -/
def mkOracles (complete extract : String → Except String String)
    (writePdf : String → String → Except String Unit) : Oracles :=
  { complete := complete, extract := extract, secureFilename := fun s => s,
    saveFile := fun _ => Except.ok (), mdRender := fun s => s,
    pdfTemplate := fun h _ => h, writePdf := writePdf }

/-- A persisted record with a deck on file and no memo yet. -/
def s0 : Startup :=
  { id := 1, name := "Acme", industry := some "Fintech", stage := none,
    assigned_gp := none, contact_person := none, founders := none,
    arr := none, funding := none, valuation := none, gp_notes := none,
    score_market := none, score_product := none, score_traction := none,
    score_team := none, score_competition := none, score_scalability := none,
    score_exit := none, overall_score := none, status := some "Submitted",
    memo_pdf := none, deck_file := some "acme.pdf" }

/-- A store holding just `s0`. -/
def db0 : Db := [s0]

/-- Oracles whose rendering step fails after extraction and inference
succeed. -/
def oRenderFail : Oracles :=
  mkOracles (fun _ => Except.ok "MEMO") (fun _ => Except.ok "DECK")
    (fun _ _ => Except.error "render boom")

/-- Oracles whose inference call fails with a service error. -/
def oCompleteFail : Oracles :=
  mkOracles (fun _ => Except.error "503") (fun _ => Except.ok "DECK")
    (fun _ _ => Except.ok ())

/-- Oracles for a fully successful run. -/
def oAllOk : Oracles :=
  mkOracles (fun _ => Except.ok "MEMO") (fun _ => Except.ok "DECK")
    (fun _ _ => Except.ok ())

/-- A confirmation form carrying an industry string outside the taxonomy. -/
def form0 : ConfirmForm :=
  { filename := "x.pdf", name := "Acme", industry := "Quantum Basket",
    assigned_gp := "G", contact_person := "C" }

/-! Helper lemmas. -/

/-- Length of a string built from a character list. -/
theorem string_mk_length (l : List Char) : (String.mk l).length = l.length := rfl

/-- The memo prompt's length is the sum of its fixed parts and the three
interpolated strings: nothing is truncated. -/
theorem memo_prompt_length (n i d : String) :
    (memo_prompt n i d).length
      = memoP0.length + n.length + memoP1.length + i.length + memoP2.length
        + d.length + memoP3.length := by
  simp [memo_prompt, String.length_append]

/-! Claims. -/

/-- Claim C1 as stated is false: `extract_startup_info` performs no
membership check, so a response naming the industry `"Banana"` is
returned verbatim even though `"Banana"` is not in the taxonomy (nor the
sentinel `"Other"`). -/
theorem c1_counterexample :
    extract_startup_info
        (fun _ => Except.ok "\x7b\"name\": \"X\", \"industry\": \"Banana\"\x7d") "deck"
      = Except.ok (Json.str "X", Json.str "Banana")
    ∧ "Banana" ∉ industry_taxonomy :=
  ⟨rfl, by decide⟩

/-- Claim C1 amended: whenever the (stripped) response parses as a JSON
object, `extract_startup_info` returns exactly the object's `name` and
`industry` values (defaulting to the empty string), with no validation
against the taxonomy. -/
theorem c1_industry_unvalidated (complete : String → Except String String)
    (deck content : String) (kvs : List (String × Json))
    (h1 : complete (extract_prompt deck) = Except.ok content)
    (h2 : json_loads (pyStrip content) = some (Json.obj kvs)) :
    extract_startup_info complete deck
      = Except.ok (objGetD kvs "name" (Json.str ""), objGetD kvs "industry" (Json.str "")) := by
  unfold extract_startup_info
  rw [h1]
  show Except.ok (parse_startup_info (pyStrip content)) = _
  simp only [parse_startup_info, h2, asObj]

/-- Witness for `c1_industry_unvalidated` at an inference response whose
industry value `"Q"` is not in the taxonomy. -/
theorem c1_industry_unvalidated_witness :
    (fun _ => Except.ok "\x7b\"name\": \"W\", \"industry\": \"Q\"\x7d" :
        String → Except String String) (extract_prompt "d")
        = Except.ok "\x7b\"name\": \"W\", \"industry\": \"Q\"\x7d"
    ∧ json_loads (pyStrip "\x7b\"name\": \"W\", \"industry\": \"Q\"\x7d")
        = some (Json.obj [("name", Json.str "W"), ("industry", Json.str "Q")])
    ∧ extract_startup_info
        (fun _ => Except.ok "\x7b\"name\": \"W\", \"industry\": \"Q\"\x7d") "d"
      = Except.ok
          (objGetD [("name", Json.str "W"), ("industry", Json.str "Q")] "name" (Json.str ""),
           objGetD [("name", Json.str "W"), ("industry", Json.str "Q")] "industry" (Json.str "")) :=
  ⟨rfl, rfl, c1_industry_unvalidated _ "d" _ _ rfl rfl⟩

/-- Claim C2 as stated is false: for an unparsable response the function
returns `("", "")` — there is no filename-hint parameter at all and the
industry component is the empty string, not the sentinel `"Other"`. -/
theorem c2_counterexample :
    extract_startup_info (fun _ => Except.ok "not json") "deck"
      = Except.ok (Json.str "", Json.str "")
    ∧ Json.str "" ≠ Json.str "Other" :=
  ⟨rfl, by simp⟩

/-- Claim C2 amended: for every malformed response (stripped content not
parseable as a JSON object, and no brace-delimited substring parseable
as one), classification returns `("", "")` — not `(filename_hint,
"Other")` — and no error is raised (the embedding is a total function
whose bare `except` routes every parse failure here). -/
theorem c2_malformed_returns_empty (complete : String → Except String String)
    (deck content : String)
    (h1 : complete (extract_prompt deck) = Except.ok content)
    (h2 : asObj (json_loads (pyStrip content)) = none)
    (h3 : (recoverBraces (pyStrip content)).bind (fun sub => asObj (json_loads sub)) = none) :
    extract_startup_info complete deck = Except.ok (Json.str "", Json.str "") := by
  unfold extract_startup_info
  rw [h1]
  show Except.ok (parse_startup_info (pyStrip content)) = _
  cases hrec : recoverBraces (pyStrip content) with
  | none => simp only [parse_startup_info, h2, hrec]
  | some sub =>
    rw [hrec] at h3
    simp only [Option.some_bind] at h3
    simp only [parse_startup_info, h2, hrec, h3]

/-- Witness for `c2_malformed_returns_empty` at the unparsable response
`"totally malformed"`. -/
theorem c2_malformed_returns_empty_witness :
    (fun _ => Except.ok "totally malformed" : String → Except String String)
        (extract_prompt "deck") = Except.ok "totally malformed"
    ∧ asObj (json_loads (pyStrip "totally malformed")) = none
    ∧ (recoverBraces (pyStrip "totally malformed")).bind (fun sub => asObj (json_loads sub)) = none
    ∧ extract_startup_info (fun _ => Except.ok "totally malformed") "deck"
        = Except.ok (Json.str "", Json.str "") :=
  ⟨rfl, rfl, rfl, c2_malformed_returns_empty _ "deck" _ rfl rfl rfl⟩

/-- Claim C3 as stated is false: memo generation is not an assembly over
a title list — it is one inference call, and when that call fails no
document with any entries is produced; the error propagates instead. -/
theorem c3_counterexample :
    generate_memo (fun _ => Except.error "rate limit") "Acme" "Fintech" "deck text"
      = Except.error "rate limit" := rfl

/-- Claim C3 amended: `generate_memo` takes no list of section titles;
it performs a single inference call over one fixed prompt (the twelve
section titles live in the fixed trailing text `memoP3`), returns the
raw response as the whole document, and produces nothing on failure. -/
theorem c3_single_call_no_assembly (complete : String → Except String String)
    (startup_name industry deck_text : String) :
    generate_memo complete startup_name industry deck_text
      = complete (memoP0 ++ startup_name ++ memoP1 ++ industry ++ memoP2
          ++ deck_text ++ memoP3) := rfl

/-- Claim C4 as stated is false: a service error from the inference call
is not caught and converted into a per-section diagnostic — it aborts the
whole memo request, which returns an error response and leaves the store
unchanged, with no document produced at all. -/
theorem c4_counterexample :
    generate_memo_for_startup oCompleteFail db0 1 = (db0, MemoResult.serverError "503") := rfl

/-- Claim C4 amended: an inference-call error propagates uncaught
through `generate_memo` and `generate_memo_for_startup`: the request
ends with that error, no section entry (diagnostic or otherwise) is
produced, and the record store is left unchanged. -/
theorem c4_inference_error_propagates (o : Oracles) (db : Db) (sid : Nat)
    (s : Startup) (f dtext e : String)
    (hs : dbGet db sid = some s) (hdf : s.deck_file = some f) (hne : f ≠ "")
    (hx : o.extract ("uploads/" ++ f) = Except.ok dtext)
    (hc : o.complete (memo_prompt s.name (pyStrOfOpt s.industry) dtext) = Except.error e) :
    generate_memo_for_startup o db sid = (db, MemoResult.serverError e) := by
  simp only [generate_memo_for_startup, generate_memo, hs, hdf, if_neg hne, hx, hc]

/-- Witness for `c4_inference_error_propagates` on the concrete store
`db0` with a failing inference oracle. -/
theorem c4_inference_error_propagates_witness :
    dbGet db0 1 = some s0
    ∧ s0.deck_file = some "acme.pdf"
    ∧ "acme.pdf" ≠ ""
    ∧ oCompleteFail.extract ("uploads/" ++ "acme.pdf") = Except.ok "DECK"
    ∧ oCompleteFail.complete (memo_prompt s0.name (pyStrOfOpt s0.industry) "DECK")
        = Except.error "503"
    ∧ generate_memo_for_startup oCompleteFail db0 1 = (db0, MemoResult.serverError "503") :=
  ⟨rfl, rfl, by simp, rfl, rfl,
   c4_inference_error_propagates oCompleteFail db0 1 s0 "acme.pdf" "DECK" "503"
     rfl rfl (by simp) rfl rfl⟩

/-- Claim C5 confirmed: for every run of the memo route, either the
store is left exactly as it was (any failure — lookup, guard,
extraction, inference, rendering — happens before the single commit), or
the record receives its new memo body and artifact reference together in
one update.  Readers can never observe one field updated without the
other. -/
theorem c5_atomic_update (o : Oracles) (db : Db) (sid : Nat) :
    (generate_memo_for_startup o db sid).1 = db
    ∨ ∃ s memo, dbGet db sid = some s
        ∧ generate_memo_for_startup o db sid
            = (dbSet db sid
                { s with memo_pdf := some (s.name ++ "_memo.pdf"), gp_notes := some memo },
               MemoResult.page (o.mdRender memo) (s.name ++ "_memo.pdf")) := by
  cases hs : dbGet db sid with
  | none =>
    refine Or.inl ?_
    simp [generate_memo_for_startup, hs]
  | some s =>
    cases hdf : s.deck_file with
    | none =>
      refine Or.inl ?_
      simp [generate_memo_for_startup, hs, hdf]
    | some f =>
      by_cases hf : f = ""
      · refine Or.inl ?_
        simp [generate_memo_for_startup, hs, hdf, if_pos hf]
      · cases hx : o.extract ("uploads/" ++ f) with
        | error e =>
          refine Or.inl ?_
          simp [generate_memo_for_startup, hs, hdf, if_neg hf, hx]
        | ok dtext =>
          cases hc : o.complete (memo_prompt s.name (pyStrOfOpt s.industry) dtext) with
          | error e =>
            refine Or.inl ?_
            simp [generate_memo_for_startup, generate_memo, hs, hdf, if_neg hf, hx, hc]
          | ok memo =>
            cases hw : o.writePdf ("outputs/" ++ (s.name ++ "_memo.pdf"))
                (o.pdfTemplate (o.mdRender memo) s.name) with
            | error e =>
              refine Or.inl ?_
              simp [generate_memo_for_startup, generate_memo, hs, hdf, if_neg hf, hx, hc, hw]
            | ok u =>
              refine Or.inr ⟨s, memo, rfl, ?_⟩
              simp [generate_memo_for_startup, generate_memo, hs, hdf, if_neg hf, hx, hc, hw]

/-- Claim C6 as stated is false: when rendering fails, the run ends with
the rendering error and the stored record still has no memo body — the
generated memo text was not persisted first, so it cannot be retrieved
and the inference work is lost. -/
theorem c6_counterexample :
    generate_memo_for_startup oRenderFail db0 1 = (db0, MemoResult.serverError "render boom")
    ∧ (dbGet (generate_memo_for_startup oRenderFail db0 1).1 1).map (fun s => s.gp_notes)
        = some none :=
  ⟨rfl, rfl⟩

/-- Claim C6 amended: a rendering failure aborts the request before any
persistence: the stored record is completely unchanged (its memo body is
still the old one, not the freshly generated text), so regenerating the
artifact requires re-running extraction and inference as well. -/
theorem c6_render_failure_loses_memo (o : Oracles) (db : Db) (sid : Nat)
    (s : Startup) (f dtext memo e : String)
    (hs : dbGet db sid = some s) (hdf : s.deck_file = some f) (hne : f ≠ "")
    (hx : o.extract ("uploads/" ++ f) = Except.ok dtext)
    (hc : o.complete (memo_prompt s.name (pyStrOfOpt s.industry) dtext) = Except.ok memo)
    (hw : o.writePdf ("outputs/" ++ (s.name ++ "_memo.pdf"))
        (o.pdfTemplate (o.mdRender memo) s.name) = Except.error e) :
    dbGet (generate_memo_for_startup o db sid).1 sid = some s
    ∧ (generate_memo_for_startup o db sid).2 = MemoResult.serverError e := by
  have hrun : generate_memo_for_startup o db sid = (db, MemoResult.serverError e) := by
    simp only [generate_memo_for_startup, generate_memo, hs, hdf, if_neg hne, hx, hc, hw]
  refine ⟨?_, ?_⟩
  · rw [hrun]
    exact hs
  · rw [hrun]

/-- Witness for `c6_render_failure_loses_memo` on `db0` with oracles
whose PDF rendering fails after a memo was generated. -/
theorem c6_render_failure_loses_memo_witness :
    dbGet db0 1 = some s0
    ∧ s0.deck_file = some "acme.pdf"
    ∧ "acme.pdf" ≠ ""
    ∧ oRenderFail.extract ("uploads/" ++ "acme.pdf") = Except.ok "DECK"
    ∧ oRenderFail.complete (memo_prompt s0.name (pyStrOfOpt s0.industry) "DECK")
        = Except.ok "MEMO"
    ∧ oRenderFail.writePdf ("outputs/" ++ (s0.name ++ "_memo.pdf"))
        (oRenderFail.pdfTemplate (oRenderFail.mdRender "MEMO") s0.name)
        = Except.error "render boom"
    ∧ (dbGet (generate_memo_for_startup oRenderFail db0 1).1 1 = some s0
        ∧ (generate_memo_for_startup oRenderFail db0 1).2
            = MemoResult.serverError "render boom") :=
  ⟨rfl, rfl, by simp, rfl, rfl, rfl,
   c6_render_failure_loses_memo oRenderFail db0 1 s0 "acme.pdf" "DECK" "MEMO" "render boom"
     rfl rfl (by simp) rfl rfl rfl⟩

/-- Claim C7 as stated is false: `confirm_startup` persists whatever
industry string the form carries, with no validation, so a record with
industry `"Quantum Basket"` — outside the taxonomy and not `"Other"` —
is stored. -/
theorem c7_counterexample :
    (dbGet (confirm_startup form0 []) 1).map (fun s => s.industry)
      = some (some "Quantum Basket")
    ∧ "Quantum Basket" ∉ industry_taxonomy :=
  ⟨rfl, by decide⟩

/-- Claim C7 amended: intake confirmation stores the form's industry
string verbatim (and status `"Submitted"`); no membership in the
taxonomy is enforced at any point, so the invariant holds only when the
submitted string happens to be in the taxonomy. -/
theorem c7_industry_stored_verbatim (form : ConfirmForm) (db : Db) :
    (dbGet (confirm_startup form db) (List.length db + 1)).map (fun s => s.industry)
      = some (some form.industry)
    ∧ (dbGet (confirm_startup form db) (List.length db + 1)).map (fun s => s.status)
      = some (some "Submitted") := by
  have hfind : dbGet (confirm_startup form db) (List.length db + 1)
      = some { id := List.length db + 1, name := form.name, industry := some form.industry,
               stage := none, assigned_gp := some form.assigned_gp,
               contact_person := some form.contact_person, founders := none,
               arr := none, funding := none, valuation := none, gp_notes := none,
               score_market := none, score_product := none, score_traction := none,
               score_team := none, score_competition := none, score_scalability := none,
               score_exit := none, overall_score := none, status := some "Submitted",
               memo_pdf := none, deck_file := some form.filename } := by
    simp [dbGet, confirm_startup, List.find?]
  rw [hfind]
  exact ⟨rfl, rfl⟩

/-- Claim C8 as stated is false for memo generation: the text submitted
to the inference service by `generate_memo` is the whole deck text — its
prompt grows without bound with the deck, so no character budget bounds
it. -/
theorem c8_counterexample :
    ¬ ∃ B : Nat, ∀ d : String, (memo_prompt "Acme" "Fintech" d).length ≤ B := by
  rintro ⟨B, hB⟩
  have h := hB (String.mk (List.replicate (B + 1) 'a'))
  rw [memo_prompt_length] at h
  have hlen : (String.mk (List.replicate (B + 1) 'a')).length = B + 1 :=
    List.length_replicate ..
  omega

/-- Claim C8 amended: only the classifier truncates — its prompt embeds
just the first 3000 characters of the deck and is bounded by a constant,
while the memo prompt's length grows exactly with the full deck text
(no truncation at all). -/
theorem c8_truncation_asymmetry (n i d : String) :
    (extract_prompt d).length ≤ (extract_prompt "").length + 3000
    ∧ (memo_prompt n i d).length = (memo_prompt n i "").length + d.length := by
  constructor
  · have h1 : (extract_prompt d).length
        = extractP0.length + (d.data.take 3000).length + extractP1.length := by
      simp [extract_prompt, String.length_append, string_mk_length]
    have h2 : (extract_prompt "").length = extractP0.length + 0 + extractP1.length := by
      simp [extract_prompt, String.length_append, string_mk_length]
    have h3 : (d.data.take 3000).length ≤ 3000 := by
      rw [List.length_take]
      exact Nat.min_le_left ..
    omega
  · rw [memo_prompt_length, memo_prompt_length]
    simp only [String.length_empty]
    omega

/-- Claim C9 confirmed: a completed memo-generation run commits exactly
the record with `gp_notes` and `memo_pdf` replaced and every other field
of that record untouched (the committed row is literally the old row
with only those two fields updated), and other records are only ever
rewritten at their own key by `dbSet`. -/
theorem c9_frame_condition (o : Oracles) (db : Db) (sid : Nat)
    (s : Startup) (f dtext memo : String)
    (hs : dbGet db sid = some s) (hdf : s.deck_file = some f) (hne : f ≠ "")
    (hx : o.extract ("uploads/" ++ f) = Except.ok dtext)
    (hc : o.complete (memo_prompt s.name (pyStrOfOpt s.industry) dtext) = Except.ok memo)
    (hw : o.writePdf ("outputs/" ++ (s.name ++ "_memo.pdf"))
        (o.pdfTemplate (o.mdRender memo) s.name) = Except.ok ()) :
    generate_memo_for_startup o db sid
      = (dbSet db sid
          { s with memo_pdf := some (s.name ++ "_memo.pdf"), gp_notes := some memo },
         MemoResult.page (o.mdRender memo) (s.name ++ "_memo.pdf")) := by
  simp only [generate_memo_for_startup, generate_memo, hs, hdf, if_neg hne, hx, hc, hw]

/-- Witness for `c9_frame_condition`: a successful run on `db0`. -/
theorem c9_frame_condition_witness :
    dbGet db0 1 = some s0
    ∧ s0.deck_file = some "acme.pdf"
    ∧ "acme.pdf" ≠ ""
    ∧ oAllOk.extract ("uploads/" ++ "acme.pdf") = Except.ok "DECK"
    ∧ oAllOk.complete (memo_prompt s0.name (pyStrOfOpt s0.industry) "DECK") = Except.ok "MEMO"
    ∧ oAllOk.writePdf ("outputs/" ++ (s0.name ++ "_memo.pdf"))
        (oAllOk.pdfTemplate (oAllOk.mdRender "MEMO") s0.name) = Except.ok ()
    ∧ generate_memo_for_startup oAllOk db0 1
        = (dbSet db0 1 { s0 with memo_pdf := some (s0.name ++ "_memo.pdf"),
                                 gp_notes := some "MEMO" },
           MemoResult.page (oAllOk.mdRender "MEMO") (s0.name ++ "_memo.pdf")) :=
  ⟨rfl, rfl, by simp, rfl, rfl, rfl,
   c9_frame_condition oAllOk db0 1 s0 "acme.pdf" "DECK" "MEMO"
     rfl rfl (by simp) rfl rfl rfl⟩

/-- Claim C10 confirmed: when the file is missing or its filename fails
the case-sensitive `endswith ".pdf"` check, the upload route answers
with the 400 response having saved nothing, made no extraction or
inference call, and left the record store untouched. -/
theorem c10_upload_reject (o : Oracles) (file? : Option UploadFile) (db : Db)
    (h : upload_rejected file? = true) :
    upload_pitchdeck o file? db
      = (db, UploadResponse.badRequest "Please upload a valid PDF", []) := by
  cases file? with
  | none => rfl
  | some f =>
    have hb : endswith f.filename ".pdf" = false := by
      simpa [upload_rejected] using h
    simp [upload_pitchdeck, hb]

/-- Witness for `c10_upload_reject` at the filename `"DECK.PDF"`, which
the case-sensitive check rejects. -/
theorem c10_upload_reject_witness :
    upload_rejected (some { filename := "DECK.PDF" }) = true
    ∧ upload_pitchdeck oAllOk (some { filename := "DECK.PDF" }) db0
        = (db0, UploadResponse.badRequest "Please upload a valid PDF", []) :=
  ⟨rfl, c10_upload_reject oAllOk (some { filename := "DECK.PDF" }) db0 rfl⟩

end SG
